import Mathlib

/-!
Shallow embedding of `src/agentic_crawler.py` (class `AgenticCrawler`).

External collaborators are abstracted exactly at their call boundaries:

* every reasoning-oracle round trip (`self.claude.messages.create` followed
  by `json.loads` and field extraction) becomes a value of `Except String α`,
  where `.error` stands for any exception raised inside the corresponding
  `try` block (network failure, timeout, malformed JSON) and `.ok` carries
  the already-decoded fields that the Python code reads out of the parsed
  response;
* the page-fetch collaborator (`crawler.arun`) becomes a function
  `String → FetchResult`: a call either raises (`FetchResult.raised`) or
  returns an outcome object carrying a `success` flag;
* the persistent-store append (`supabase.table('crawl_learning').insert`) is
  a `Bool` telling whether the write succeeded; the Python code swallows the
  exception either way, which the embedding mirrors by ignoring the flag;
* wall-clock reads (`time.time()`, `datetime.now().isoformat()`) are passed
  in as explicit `duration` and `now` arguments.

Mutable instance state (`self.strategies`, `self.learned_patterns`,
`self.success_history`) is threaded explicitly as `CrawlerState`.  The
browser/run configuration dictionaries built in `_execute_with_monitoring`
only parameterize the external fetch collaborator and are absorbed into the
`fetch` argument.
-/

namespace AgenticCrawler

/-- Dataclass `CrawlStrategy`.  `depth_limit` is a Python `int`, hence `Int`;
the numeric thresholds in `success_metrics` are embedded as rationals. -/
structure CrawlStrategy where
  name : String
  description : String
  target_patterns : List String
  depth_limit : Int
  follow_links : Bool
  extract_patterns : List String
  success_metrics : List (String × Rat)
  adaptation_rules : List String
deriving DecidableEq

/-- Dataclass `CrawlContext`.  `domain_knowledge` is an opaque mapping and
`previous_attempts` a list of opaque mappings; both are embedded as
association lists of strings. -/
structure CrawlContext where
  user_intent : String
  domain_knowledge : List (String × String)
  previous_attempts : List (List (String × String))
  success_patterns : List String
  failure_patterns : List String
  time_constraints : Option Int
deriving DecidableEq

/-- The object returned by a non-raising `crawler.arun` call: a `success`
flag, the extracted content, metadata and any discovered links. -/
structure FetchOutcome where
  success : Bool
  extracted_content : String
  metadata : List (String × String)
  links : List String
deriving DecidableEq

/-- Result of one call to the fetch collaborator: either the call raised an
exception (carrying its message) or it returned a `FetchOutcome`. -/
inductive FetchResult where
  | raised : String → FetchResult
  | outcome : FetchOutcome → FetchResult
deriving DecidableEq

/-- Whether a fetch call returned an outcome object instead of raising. -/
def FetchResult.isOutcome : FetchResult → Bool
  | .raised _ => false
  | .outcome _ => true

/-- The `results["primary_content"]` entry built on a successful primary
fetch (url, content, metadata, timestamp). -/
structure PrimaryContent where
  url : String
  content : String
  metadata : List (String × String)
  timestamp : String
deriving DecidableEq

/-- One entry of `results["discovered_opportunities"]`. -/
structure Opportunity where
  url : String
  content : String
  relation_to_primary : String
deriving DecidableEq

/-- The `results` dictionary assembled by `_execute_with_monitoring`.  The
Python dict always carries a single `primary_content` slot; it is left as the
empty dict `{}` when the primary fetch fails, embedded here as `none` (the
failed marking).  `performance_metrics` is initialized to `{}` and never
written, embedded as the empty association list. -/
structure CrawlResult where
  primary_content : Option PrimaryContent
  discovered_opportunities : List Opportunity
  performance_metrics : List (String × String)
  adaptation_log : List String
deriving DecidableEq

/-- A run of `_execute_with_monitoring` together with the observable calls it
made: `fetched` lists every url passed to `crawler.arun` in order (its head
is always the primary url), and `followup_select_called` records whether
`_identify_follow_up_links` (the follow-up selection oracle consult) ran. -/
structure ExecTrace where
  result : CrawlResult
  fetched : List String
  followup_select_called : Bool
deriving DecidableEq

/-- Fields that `analyze_intent` reads out of the parsed oracle response;
each is `none` when the key is absent from the JSON object (Python
`dict.get` with a default). -/
structure IntentAnalysis where
  primary_intent : Option String
  domain_insights : Option (List (String × String))
  recommended_patterns : Option (List String)
  avoid_patterns : Option (List String)
deriving DecidableEq

/-- The `modifications` dictionary of a strategy decision; a field is `none`
when the corresponding key is absent (`if "depth_limit" in modifications`
etc. in `_modify_strategy`). -/
structure Modifications where
  depth_limit : Option Int
  additional_patterns : Option (List String)
  follow_links : Option Bool
deriving DecidableEq

/-- The decision `select_strategy` reads out of the parsed oracle response:
`selected_strategy` is `none` when the key is absent (Python defaults it to
"deep_research"), `modifications` defaults to the empty dict. -/
structure StrategyDecision where
  selected_strategy : Option String
  modifications : Modifications
deriving DecidableEq

/-- The `learning_record` dictionary built by `_learn_from_crawl`, with the
nested `strategy_effectiveness` mapping flattened into fields.  The
`content_extracted` metric (the length of the Python `str()` rendering of
the primary-content dict) is clock- and repr-dependent noise and is not
modelled; no claim observes it. -/
structure LearningRecord where
  timestamp : String
  url_pattern : String
  user_intent : String
  duration : Int
  opportunities_found : Nat
  strategy_used : String
  adaptation_notes : List String
deriving DecidableEq

/-- The mutable instance state of `AgenticCrawler`: the strategy catalog
`self.strategies`, the pattern store `self.learned_patterns` (an opaque
mapping keyed by `pattern_type`), and the in-memory learning window
`self.success_history`. -/
structure CrawlerState where
  strategies : List (String × CrawlStrategy)
  learned_patterns : List (String × String)
  success_history : List LearningRecord
deriving DecidableEq

/-- The "deep_research" catalog entry from `_load_base_strategies`. -/
def deep_research : CrawlStrategy :=
  { name := "Deep Research"
    description := "Thorough multi-page analysis for comprehensive understanding"
    target_patterns := ["article", "blog", "research", "study", "analysis"]
    depth_limit := 3
    follow_links := true
    extract_patterns := ["main content", "citations", "references", "related links"]
    success_metrics := [("content_depth", (0.8 : Rat)), ("relevance_score", (0.7 : Rat))]
    adaptation_rules := ["increase_depth_if_shallow", "follow_citations"] }

/-- The "quick_scan" catalog entry from `_load_base_strategies`. -/
def quick_scan : CrawlStrategy :=
  { name := "Quick Scanner"
    description := "Fast overview crawl for key information extraction"
    target_patterns := ["summary", "overview", "key points", "highlights"]
    depth_limit := 1
    follow_links := false
    extract_patterns := ["headings", "bullet points", "key metrics"]
    success_metrics := [("speed", (0.9 : Rat)), ("coverage", (0.6 : Rat))]
    adaptation_rules := ["prioritize_structured_data"] }

/-- The "discovery_mode" catalog entry from `_load_base_strategies`. -/
def discovery_mode : CrawlStrategy :=
  { name := "Discovery Explorer"
    description := "Proactive discovery of related opportunities and content"
    target_patterns := ["sitemap", "directory", "index", "catalog"]
    depth_limit := 2
    follow_links := true
    extract_patterns := ["navigation", "categories", "related topics"]
    success_metrics := [("discovery_rate", (0.8 : Rat)), ("novelty", (0.7 : Rat))]
    adaptation_rules := ["expand_to_related_domains", "follow_category_links"] }

/-- `_load_base_strategies`: the static catalog, keyed as in the source. -/
def base_strategies : List (String × CrawlStrategy) :=
  [("deep_research", deep_research), ("quick_scan", quick_scan),
   ("discovery_mode", discovery_mode)]

/-- Python dict subscript `d[key]` on the strategy catalog, returning `none`
where Python would raise `KeyError`. -/
def dict_get (d : List (String × CrawlStrategy)) (key : String) : Option CrawlStrategy :=
  match d with
  | [] => none
  | (k, v) :: rest => if key = k then some v else dict_get rest key

/-- `_load_learned_patterns`: one startup read of the `learned_patterns`
table, abstracted as an oracle for the row set; any exception yields the
empty mapping. -/
def load_learned_patterns (store : Except String (List (String × String))) :
    List (String × String) :=
  match store with
  | .error _ => []
  | .ok rows => rows

/-- `__init__`: the catalog is `_load_base_strategies()`, the pattern store
is the startup read, and the history starts empty.  Nothing in the class
ever reassigns `self.strategies`. -/
def init_state (patterns : List (String × String)) : CrawlerState :=
  { strategies := base_strategies, learned_patterns := patterns,
    success_history := [] }

/-- Host portion of a URL as computed by Python's `urlparse(url).netloc`:
the text after the "//" that introduces the authority (possibly preceded by
a scheme), up to the next "/", "?" or "#"; empty when the URL carries no
authority part. -/
def netloc (url : String) : String :=
  let authority :=
    if url.startsWith "//" then url.drop 2
    else
      match url.splitOn "://" with
      | _ :: rest :: more => String.intercalate "://" (rest :: more)
      | _ => ""
  let hostPort := (authority.splitOn "/").headD ""
  let beforeQuery := (hostPort.splitOn "?").headD ""
  (beforeQuery.splitOn "#").headD ""

/-- `analyze_intent`: on a parsed oracle response the context is filled from
`analysis.get(..., default)`; any exception in the try block yields the
fixed fallback context. -/
def analyze_intent (intent_oracle : Except String IntentAnalysis) : CrawlContext :=
  match intent_oracle with
  | .ok analysis =>
      { user_intent := analysis.primary_intent.getD "research"
        domain_knowledge := analysis.domain_insights.getD []
        previous_attempts := []
        success_patterns := analysis.recommended_patterns.getD []
        failure_patterns := analysis.avoid_patterns.getD []
        time_constraints := none }
  | .error _ =>
      { user_intent := "research"
        domain_knowledge := []
        previous_attempts := []
        success_patterns := []
        failure_patterns := []
        time_constraints := none }

/-- `_modify_strategy`: the updates are applied to
`CrawlStrategy(**asdict(strategy))` — a fresh deep copy, so the catalog
entry itself is never written.  A present `depth_limit` or `follow_links`
key overwrites the field; a present `additional_patterns` key extends the
copy's `extract_patterns` list. -/
def modify_strategy (strategy : CrawlStrategy) (modifications : Modifications) :
    CrawlStrategy :=
  { strategy with
    depth_limit := modifications.depth_limit.getD strategy.depth_limit
    extract_patterns :=
      strategy.extract_patterns ++ modifications.additional_patterns.getD []
    follow_links := modifications.follow_links.getD strategy.follow_links }

/-- `select_strategy`, threading the catalog `self.strategies` through the
call.  An oracle failure, or a `KeyError` from `self.strategies[name]` on an
unrecognized name, lands in the `except` branch, which returns
`self.strategies["deep_research"]`; for every state reachable from
`__init__` the catalog is `base_strategies`, so the `.getD deep_research`
default of that lookup is never exercised.  The second component is the
catalog as the call leaves it: `_modify_strategy` builds a fresh copy, so no
path writes to the catalog. -/
def select_strategy_from (strategies : List (String × CrawlStrategy))
    (strategy_oracle : Except String StrategyDecision) :
    CrawlStrategy × List (String × CrawlStrategy) :=
  match strategy_oracle with
  | .error _ => ((dict_get strategies "deep_research").getD deep_research, strategies)
  | .ok decision =>
      match dict_get strategies (decision.selected_strategy.getD "deep_research") with
      | none => ((dict_get strategies "deep_research").getD deep_research, strategies)
      | some selected => (modify_strategy selected decision.modifications, strategies)

/-- The strategy value produced by `select_strategy` against the catalog
installed by `__init__`. -/
def select_strategy (strategy_oracle : Except String StrategyDecision) :
    CrawlStrategy :=
  (select_strategy_from base_strategies strategy_oracle).1

/-- The `depth_limit` entry of the oracle decision's modifications, when the
oracle call succeeded and the key is present. -/
def decision_depth_mod : Except String StrategyDecision → Option Int
  | .error _ => none
  | .ok decision => decision.modifications.depth_limit

/-- `_identify_follow_up_links`: the oracle consult returns the recommended
url list; any exception in the try block yields the empty list. -/
def identify_follow_up_links (links_oracle : Except String (List String)) :
    List String :=
  match links_oracle with
  | .error _ => []
  | .ok urls => urls

/-- One iteration of the follow-up loop in `_execute_with_monitoring` over
the accumulator (opportunities, adaptation log, urls fetched so far): a
raising fetch is caught and logged, a returned outcome is appended as an
opportunity only when its `success` flag is set (an unsuccessful outcome is
skipped silently). -/
def follow_step (fetch : String → FetchResult)
    (acc : List Opportunity × List String × List String) (link_url : String) :
    List Opportunity × List String × List String :=
  match fetch link_url with
  | .raised e =>
      (acc.1, acc.2.1 ++ ["Failed to crawl " ++ link_url ++ ": " ++ e],
       acc.2.2 ++ [link_url])
  | .outcome follow_result =>
      if follow_result.success = true then
        (acc.1 ++ [{ url := link_url, content := follow_result.extracted_content,
                     relation_to_primary := "discovered_link" }],
         acc.2.1, acc.2.2 ++ [link_url])
      else
        (acc.1, acc.2.1, acc.2.2 ++ [link_url])

/-- `_execute_with_monitoring`.  The primary `crawler.arun` call is not
wrapped in a try block, so a raising primary fetch propagates (`.error`).
On an unsuccessful primary outcome the results dict is returned with its
initial empty slots.  On success, follow-ups run only when
`strategy.follow_links and strategy.depth_limit > 1`; the selected links are
truncated to the first three, and the loop accumulates opportunities and
diagnostics as in `follow_step`.  The folded triple appears three times
because the single Python loop fills three slots of the results dict. -/
def execute_with_monitoring (fetch : String → FetchResult)
    (links_oracle : Except String (List String)) (now url : String)
    (strategy : CrawlStrategy) (_context : CrawlContext) :
    Except String ExecTrace :=
  match fetch url with
  | .raised e => .error e
  | .outcome primary_result =>
      if primary_result.success = true then
        if strategy.follow_links = true ∧ 1 < strategy.depth_limit then
          .ok { result :=
                  { primary_content := some
                      { url := url, content := primary_result.extracted_content,
                        metadata := primary_result.metadata, timestamp := now }
                    discovered_opportunities :=
                      (((identify_follow_up_links links_oracle).take 3).foldl
                        (follow_step fetch) ([], [], [])).1
                    performance_metrics := []
                    adaptation_log :=
                      (((identify_follow_up_links links_oracle).take 3).foldl
                        (follow_step fetch) ([], [], [])).2.1 }
                fetched := url ::
                  (((identify_follow_up_links links_oracle).take 3).foldl
                    (follow_step fetch) ([], [], [])).2.2
                followup_select_called := true }
        else
          .ok { result :=
                  { primary_content := some
                      { url := url, content := primary_result.extracted_content,
                        metadata := primary_result.metadata, timestamp := now }
                    discovered_opportunities := []
                    performance_metrics := []
                    adaptation_log := [] }
                fetched := [url]
                followup_select_called := false }
      else
        .ok { result :=
                { primary_content := none
                  discovered_opportunities := []
                  performance_metrics := []
                  adaptation_log := [] }
              fetched := [url]
              followup_select_called := false }

/-- The `learning_record` built by `_learn_from_crawl` (nested
`strategy_effectiveness` metrics flattened). -/
def mk_learning_record (now url user_query : String) (duration : Int)
    (strategy : CrawlStrategy) (results : CrawlResult) : LearningRecord :=
  { timestamp := now
    url_pattern := netloc url
    user_intent := user_query
    duration := duration
    opportunities_found := results.discovered_opportunities.length
    strategy_used := strategy.name
    adaptation_notes := results.adaptation_log }

/-- The in-memory window update at the end of `_learn_from_crawl`: append
the record, then trim to the most recent 100 entries (`[-100:]`) when the
length exceeds 100. -/
def history_append (history : List LearningRecord) (record : LearningRecord) :
    List LearningRecord :=
  if 100 < (history ++ [record]).length then
    (history ++ [record]).drop ((history ++ [record]).length - 100)
  else
    history ++ [record]

/-- `_learn_from_crawl`: the persistent-store insert is attempted first and
its failure is printed and swallowed, so `persist_ok` does not influence the
state update; the record is then appended to the bounded window.  No other
state field is written — in particular `self.learned_patterns` is untouched. -/
def learn_from_crawl (persist_ok : Bool) (st : CrawlerState)
    (url user_query : String) (strategy : CrawlStrategy) (results : CrawlResult)
    (now : String) (duration : Int) : CrawlerState :=
  let _ := persist_ok
  { st with
    success_history :=
      history_append st.success_history
        (mk_learning_record now url user_query duration strategy results) }

/-- `adaptive_crawl`: Phase 1 analyzes intent, Phase 2 selects a strategy
(the context feeds only the oracle prompt, which the oracle arguments
absorb), Phase 3 executes with monitoring, Phase 4 learns from the results.
There is no input validation on `url`; a raising primary fetch is the only
way the run itself raises. -/
def adaptive_crawl (intent_oracle : Except String IntentAnalysis)
    (strategy_oracle : Except String StrategyDecision)
    (links_oracle : Except String (List String))
    (fetch : String → FetchResult) (persist_ok : Bool) (now : String)
    (st : CrawlerState) (url user_query : String) (duration : Int) :
    Except String (CrawlResult × CrawlerState) :=
  match execute_with_monitoring fetch links_oracle now url
      (select_strategy strategy_oracle) (analyze_intent intent_oracle) with
  | .error e => .error e
  | .ok tr =>
      .ok (tr.result,
           learn_from_crawl persist_ok st url user_query
             (select_strategy strategy_oracle) tr.result now duration)

/-- Whether a run handed a value back to the caller instead of raising. -/
def returns_result {α : Type} (x : Except String α) : Bool :=
  match x with
  | .ok _ => true
  | .error _ => false

/-- A fetch outcome whose `success` flag is down. -/
def failed_outcome : FetchOutcome :=
  { success := false, extracted_content := "", metadata := [], links := [] }

/-- A successful fetch outcome with some content. -/
def ok_outcome : FetchOutcome :=
  { success := true, extracted_content := "body", metadata := [], links := [] }

/-- An empty results dictionary. -/
def empty_result : CrawlResult :=
  { primary_content := none, discovered_opportunities := [],
    performance_metrics := [], adaptation_log := [] }

/-- The fallback crawl context, for use as a concrete argument. -/
def sample_context : CrawlContext :=
  { user_intent := "research", domain_knowledge := [], previous_attempts := [],
    success_patterns := [], failure_patterns := [], time_constraints := none }

/-- A concrete learning record. -/
def sample_record : LearningRecord :=
  { timestamp := "t", url_pattern := "example.com", user_intent := "q",
    duration := 0, opportunities_found := 0, strategy_used := "Deep Research",
    adaptation_notes := [] }

/-- A full in-memory window of 100 identical records. -/
def hundred_window : List LearningRecord := List.replicate 100 sample_record

/-- An oracle decision that picks "quick_scan" and pushes its depth limit
below zero. -/
def neg_depth_oracle : Except String StrategyDecision :=
  .ok { selected_strategy := some "quick_scan"
        modifications :=
          { depth_limit := some (-1), additional_patterns := none,
            follow_links := none } }

/-- An oracle decision naming a strategy outside the catalog, with
modifications attached that the fallback must ignore. -/
def bogus_decision : StrategyDecision :=
  { selected_strategy := some "fast_mode"
    modifications :=
      { depth_limit := some 5, additional_patterns := some ["extra"],
        follow_links := some true } }

/-- A fetch collaborator that raises on the url "u2" and succeeds elsewhere. -/
def c7_fetch : String → FetchResult :=
  fun u => if u = "u2" then .raised "boom" else .outcome ok_outcome

/-- The trace of a concrete executor run: four links recommended, three
fetched and turned into opportunities. -/
def c5_trace : ExecTrace :=
  { result :=
      { primary_content := some
          { url := "u", content := "body", metadata := [], timestamp := "t" }
        discovered_opportunities :=
          [⟨"a", "body", "discovered_link"⟩, ⟨"b", "body", "discovered_link"⟩,
           ⟨"c", "body", "discovered_link"⟩]
        performance_metrics := []
        adaptation_log := [] }
    fetched := ["u", "a", "b", "c"]
    followup_select_called := true }

/-- Every strategy a successful catalog lookup can return is one of the
three entries installed by `_load_base_strategies`. -/
lemma dict_get_base_cases (k : String) (s : CrawlStrategy)
    (h : dict_get base_strategies k = some s) :
    s = deep_research ∨ s = quick_scan ∨ s = discovery_mode := by
  simp only [base_strategies, dict_get] at h
  split_ifs at h
  · exact Or.inl (Option.some.inj h).symm
  · exact Or.inr (Or.inl (Option.some.inj h).symm)
  · exact Or.inr (Or.inr (Option.some.inj h).symm)

/-- The window update keeps the in-memory history at or below 100 entries. -/
lemma history_append_le (h : List LearningRecord) (r : LearningRecord) :
    (history_append h r).length ≤ 100 := by
  unfold history_append
  by_cases hc : 100 < (h ++ [r]).length
  · rw [if_pos hc]
    simp only [List.length_drop]
    omega
  · rw [if_neg hc]
    omega

/-- Folding any sequence of records through the window update preserves the
100-entry bound. -/
lemma foldl_history_length_le (rs : List LearningRecord)
    (h : List LearningRecord) (hh : h.length ≤ 100) :
    (rs.foldl history_append h).length ≤ 100 := by
  induction rs generalizing h with
  | nil => simpa using hh
  | cons a as ih =>
    rw [List.foldl_cons]
    exact ih _ (history_append_le h a)

/-- Appending to a full window of 100 entries evicts exactly the oldest
entry. -/
lemma history_append_full (h : List LearningRecord) (r : LearningRecord)
    (hlen : h.length = 100) : history_append h r = h.tail ++ [r] := by
  unfold history_append
  have hc : 100 < (h ++ [r]).length := by simp [hlen]
  rw [if_pos hc]
  have hone : (h ++ [r]).length - 100 = 1 := by simp [hlen]
  rw [hone, List.drop_append_of_le_length (by omega), List.drop_one]

/-- Each iteration of the follow-up loop adds at most one opportunity and
fetches exactly one url. -/
lemma follow_step_lengths (fetch : String → FetchResult)
    (acc : List Opportunity × List String × List String) (a : String) :
    (follow_step fetch acc a).1.length ≤ acc.1.length + 1
      ∧ (follow_step fetch acc a).2.2.length = acc.2.2.length + 1 := by
  cases hfa : fetch a with
  | raised e => simp [follow_step, hfa]
  | outcome fo =>
    simp only [follow_step, hfa]
    split_ifs with hfo <;> simp

/-- Folding the follow-up loop over a link list grows the opportunity list
by at most the number of links and fetches exactly one url per link. -/
lemma follow_fold_lengths (fetch : String → FetchResult) (links : List String)
    (init : List Opportunity × List String × List String) :
    ((links.foldl (follow_step fetch) init).1.length
        ≤ init.1.length + links.length)
      ∧ ((links.foldl (follow_step fetch) init).2.2.length
        = init.2.2.length + links.length) := by
  induction links generalizing init with
  | nil => simp
  | cons a as ih =>
    rw [List.foldl_cons]
    obtain ⟨ih1, ih2⟩ := ih (follow_step fetch init a)
    obtain ⟨hs1, hs2⟩ := follow_step_lengths fetch init a
    refine ⟨?_, ?_⟩
    · simp only [List.length_cons]
      omega
    · simp only [List.length_cons]
      omega

/-- When the primary fetch returns an outcome object, the executor hands a
trace back instead of raising. -/
lemma execute_returns_of_outcome (fetch : String → FetchResult)
    (lo : Except String (List String)) (now url : String)
    (strat : CrawlStrategy) (ctx : CrawlContext) (po : FetchOutcome)
    (hf : fetch url = .outcome po) :
    returns_result (execute_with_monitoring fetch lo now url strat ctx) = true := by
  simp only [execute_with_monitoring, hf]
  split_ifs <;> rfl

/-- C2.  When the primary fetch returns an unsuccessful outcome, the result
keeps its single primary slot marked failed (the empty dict, embedded as
`none`), carries no opportunities and no diagnostics, only the primary url
was ever fetched, and the follow-up selection oracle was never consulted:
the machine goes straight to DONE. -/
theorem c2_primary_failure (fetch : String → FetchResult)
    (lo : Except String (List String)) (now url : String)
    (strat : CrawlStrategy) (ctx : CrawlContext) (po : FetchOutcome)
    (hf : fetch url = .outcome po) (hs : po.success = false) :
    execute_with_monitoring fetch lo now url strat ctx
      = .ok { result := { primary_content := none, discovered_opportunities := [],
                          performance_metrics := [], adaptation_log := [] }
              fetched := [url]
              followup_select_called := false } := by
  simp [execute_with_monitoring, hf, hs]

/-- C2 witness: a concrete run against a fetch stub whose outcome is marked
unsuccessful. -/
theorem c2_primary_failure_witness :
    execute_with_monitoring (fun _ => .outcome failed_outcome) (.error "down")
        "t" "https://example.com" deep_research sample_context
      = .ok { result := { primary_content := none, discovered_opportunities := [],
                          performance_metrics := [], adaptation_log := [] }
              fetched := ["https://example.com"]
              followup_select_called := false } :=
  c2_primary_failure _ _ _ _ _ _ failed_outcome rfl rfl

/-- C4 counterexample: a well-formed oracle response whose `primary_intent`
is "summarize" is adopted verbatim, so the context's user intent lies
outside the enumerated set research/monitoring/discovery/extraction. -/
theorem c4_counterexample :
    (analyze_intent (.ok ⟨some "summarize", none, none, none⟩)).user_intent
        = "summarize"
      ∧ "summarize" ∉ ["research", "monitoring", "discovery", "extraction"] :=
  ⟨rfl, by decide⟩

/-- C4 amended: the user intent is "research" whenever the oracle call fails
and whenever the parsed response omits `primary_intent`; a present
`primary_intent` is adopted verbatim, without validation against the
enumerated set. -/
theorem c4_intent_default (e : String) (a : IntentAnalysis) :
    (analyze_intent (.error e)).user_intent = "research"
      ∧ (analyze_intent (.ok a)).user_intent = a.primary_intent.getD "research" :=
  ⟨rfl, rfl⟩

/-- C9.  Two `select_strategy` calls with the same oracle decision, the
second run against the catalog left behind by the first, produce the same
strategy value, and the call leaves the catalog unchanged: modifications are
applied to a fresh copy of the entry, never to the catalog itself. -/
theorem c9_selector_idempotent (o : Except String StrategyDecision) :
    (select_strategy_from base_strategies o).2 = base_strategies
      ∧ (select_strategy_from (select_strategy_from base_strategies o).2 o).1
        = (select_strategy_from base_strategies o).1 := by
  have h2 : (select_strategy_from base_strategies o).2 = base_strategies := by
    cases o with
    | error e => rfl
    | ok decision =>
      simp only [select_strategy_from]
      cases hg : dict_get base_strategies
          (decision.selected_strategy.getD "deep_research") <;> simp [hg]
  exact ⟨h2, by rw [h2]⟩

/-- C10 amended: `_learn_from_crawl` appends the new record to the history
window but leaves the in-memory pattern store (and the catalog) untouched,
whatever the persistence outcome; learned signals are never refreshed during
the process lifetime. -/
theorem c10_learning_updates (b : Bool) (st : CrawlerState)
    (url q now : String) (strat : CrawlStrategy) (res : CrawlResult) (d : Int) :
    (learn_from_crawl b st url q strat res now d).learned_patterns
        = st.learned_patterns
      ∧ (learn_from_crawl b st url q strat res now d).strategies = st.strategies
      ∧ (learn_from_crawl b st url q strat res now d).success_history
        = history_append st.success_history (mk_learning_record now url q d strat res) :=
  ⟨rfl, rfl, rfl⟩

/-- C10 counterexample: a concrete record operation grows the history window
by one entry yet leaves the pattern store exactly as it was at startup — the
record operation does not update the Pattern Store. -/
theorem c10_counterexample :
    (learn_from_crawl true (init_state []) "https://example.com/a" "find deals"
        deep_research empty_result "t" 5).success_history.length = 1
      ∧ (learn_from_crawl true (init_state []) "https://example.com/a" "find deals"
        deep_research empty_result "t" 5).learned_patterns = [] :=
  ⟨rfl, rfl⟩

/-- C1 counterexample: calling the orchestrator with an empty url is not
rejected — the run proceeds through every phase and hands back a
CrawlResult with a failed primary outcome, and the learning phase has
appended its record (history length 1), so phases executed despite the
invalid input. -/
theorem c1_counterexample :
    (adaptive_crawl (.error "down") (.error "down") (.error "down")
        (fun _ => .outcome failed_outcome) true "t" (init_state [])
        "" "find deals" 0).map
      (fun p => (p.1.primary_content, p.1.discovered_opportunities,
                 p.2.success_history.length))
      = .ok (none, [], 1) := rfl

/-- C1 amended: `adaptive_crawl` performs no input validation, so no url is
ever rejected; whenever the fetch collaborator returns outcome objects
(rather than raising), every run — empty url included — returns a
CrawlResult instead of raising. -/
theorem c1_always_returns (io : Except String IntentAnalysis)
    (so : Except String StrategyDecision) (lo : Except String (List String))
    (fetch : String → FetchResult) (b : Bool) (now : String) (st : CrawlerState)
    (url q : String) (d : Int)
    (h : ∀ u, (fetch u).isOutcome = true) :
    returns_result (adaptive_crawl io so lo fetch b now st url q d) = true := by
  cases hf : fetch url with
  | raised e =>
    have hu := h url
    rw [hf] at hu
    simp [FetchResult.isOutcome] at hu
  | outcome po =>
    have hex := execute_returns_of_outcome fetch lo now url (select_strategy so)
      (analyze_intent io) po hf
    unfold adaptive_crawl
    cases hE : execute_with_monitoring fetch lo now url (select_strategy so)
        (analyze_intent io) with
    | error e2 => rw [hE] at hex; simp [returns_result] at hex
    | ok tr => rfl

/-- C1 witness: a concrete run against a never-raising fetch stub returns a
result. -/
theorem c1_always_returns_witness :
    returns_result (adaptive_crawl (.error "down") (.error "down") (.error "down")
        (fun _ => .outcome failed_outcome) true "t" (init_state [])
        "https://example.com" "find deals" 0) = true :=
  c1_always_returns _ _ _ _ _ _ _ _ _ _ (fun _ => rfl)

/-- C3 counterexample: an oracle decision carrying a negative `depth_limit`
modification is applied unvalidated, so the selector returns a strategy
whose depth limit is -1, below zero. -/
theorem c3_counterexample :
    (select_strategy neg_depth_oracle).depth_limit = -1
      ∧ (select_strategy neg_depth_oracle).depth_limit < 0 :=
  ⟨rfl, by decide⟩

/-- C3 amended: the selected strategy's name is always one of the catalog's
entries, and its depth limit can only drop below zero when the oracle's
decision itself carries a negative `depth_limit` modification (the
modification values are applied without validation). -/
theorem c3_strategy_invariant (o : Except String StrategyDecision) :
    (select_strategy o).name ∈ base_strategies.map (fun p => p.2.name)
      ∧ ((select_strategy o).depth_limit < 0 →
          ∃ d, decision_depth_mod o = some d ∧ d < 0) := by
  cases o with
  | error e =>
    have hsel : select_strategy (Except.error e) = deep_research := rfl
    refine ⟨?_, ?_⟩
    · rw [hsel]; decide
    · intro hneg
      rw [hsel] at hneg
      exact absurd hneg (by decide)
  | ok dec =>
    cases hg : dict_get base_strategies (dec.selected_strategy.getD "deep_research") with
    | none =>
      have hsel : select_strategy (Except.ok dec) = deep_research := by
        simp only [select_strategy, select_strategy_from]
        rw [hg]
        exact rfl
      refine ⟨?_, ?_⟩
      · rw [hsel]; decide
      · intro hneg
        rw [hsel] at hneg
        exact absurd hneg (by decide)
    | some s =>
      have hsel : select_strategy (Except.ok dec)
          = modify_strategy s dec.modifications := by
        simp [select_strategy, select_strategy_from, hg]
      have hmem := dict_get_base_cases _ s hg
      refine ⟨?_, ?_⟩
      · rw [hsel]
        show s.name ∈ _
        rcases hmem with h1 | h1 | h1 <;> rw [h1] <;> decide
      · intro hneg
        rw [hsel] at hneg
        have hdepth : (modify_strategy s dec.modifications).depth_limit
            = dec.modifications.depth_limit.getD s.depth_limit := rfl
        rw [hdepth] at hneg
        cases hm : dec.modifications.depth_limit with
        | none =>
          rw [hm, Option.getD_none] at hneg
          rcases hmem with h1 | h1 | h1 <;> rw [h1] at hneg <;>
            exact absurd hneg (by decide)
        | some d =>
          rw [hm, Option.getD_some] at hneg
          exact ⟨d, by simp [decision_depth_mod, hm], hneg⟩

/-- C3 witness: at the concrete negative-depth decision, the name is still a
catalog name and the negative depth is traced to the oracle's modification. -/
theorem c3_strategy_invariant_witness :
    (select_strategy neg_depth_oracle).name ∈ base_strategies.map (fun p => p.2.name)
      ∧ ∃ d, decision_depth_mod neg_depth_oracle = some d ∧ d < 0 :=
  ⟨(c3_strategy_invariant neg_depth_oracle).1,
   (c3_strategy_invariant neg_depth_oracle).2 (by decide)⟩

/-- C5.  Whatever the oracle recommends and whatever the primary fetch
discovered, a returned trace carries at most three opportunities and issued
at most three follow-up fetches (the head of `fetched` is the primary
fetch, its tail the follow-ups). -/
theorem c5_bounded_followups (fetch : String → FetchResult)
    (lo : Except String (List String)) (now url : String) (strat : CrawlStrategy)
    (ctx : CrawlContext) (tr : ExecTrace)
    (h : execute_with_monitoring fetch lo now url strat ctx = .ok tr) :
    tr.result.discovered_opportunities.length ≤ 3
      ∧ tr.fetched.tail.length ≤ 3 := by
  cases hf : fetch url with
  | raised e =>
    simp only [execute_with_monitoring, hf] at h
    simp at h
  | outcome po =>
    simp only [execute_with_monitoring, hf] at h
    split_ifs at h with hs hc
    · injection h with h1
      subst h1
      have hl := follow_fold_lengths fetch
        ((identify_follow_up_links lo).take 3) ([], [], [])
      have ht := List.length_take_le 3 (identify_follow_up_links lo)
      simp only [List.length_nil, Nat.zero_add] at hl
      refine ⟨?_, ?_⟩
      · dsimp only
        omega
      · dsimp only
        rw [List.tail_cons]
        omega
    · injection h with h1
      subst h1
      simp
    · injection h with h1
      subst h1
      simp

/-- C5 witness: with four recommended links against an always-successful
fetch stub, the returned trace has exactly three opportunities and three
follow-up fetches. -/
theorem c5_bounded_followups_witness :
    c5_trace.result.discovered_opportunities.length ≤ 3
      ∧ c5_trace.fetched.tail.length ≤ 3 :=
  c5_bounded_followups (fun _ => .outcome ok_outcome) (.ok ["a", "b", "c", "d"])
    "t" "u" deep_research sample_context c5_trace rfl

/-- C6.  The in-memory learning window: folding any record sequence through
the window update keeps its length at or below 100; appending to a full
window of 100 evicts exactly the oldest entry (FIFO); the state update is
independent of the persistence outcome; and the new record is always
appended through the window update. -/
theorem c6_window_invariant (rs : List LearningRecord) (h : List LearningRecord)
    (r : LearningRecord) (b1 b2 : Bool) (st : CrawlerState) (url q now : String)
    (strat : CrawlStrategy) (res : CrawlResult) (d : Int)
    (hlen : h.length = 100) :
    (rs.foldl history_append []).length ≤ 100
      ∧ history_append h r = h.tail ++ [r]
      ∧ learn_from_crawl b1 st url q strat res now d
        = learn_from_crawl b2 st url q strat res now d
      ∧ (learn_from_crawl b1 st url q strat res now d).success_history
        = history_append st.success_history
            (mk_learning_record now url q d strat res) :=
  ⟨foldl_history_length_le rs [] (by simp), history_append_full h r hlen,
   rfl, rfl⟩

/-- C6 witness: the invariant instantiated at a full window of 100 concrete
records and a concrete state. -/
theorem c6_window_invariant_witness :
    (([] : List LearningRecord).foldl history_append []).length ≤ 100
      ∧ history_append hundred_window sample_record
        = hundred_window.tail ++ [sample_record]
      ∧ learn_from_crawl true (init_state []) "u" "q" deep_research empty_result "t" 0
        = learn_from_crawl false (init_state []) "u" "q" deep_research empty_result "t" 0
      ∧ (learn_from_crawl true (init_state []) "u" "q" deep_research empty_result
          "t" 0).success_history
        = history_append (init_state []).success_history
            (mk_learning_record "t" "u" "q" 0 deep_research empty_result) :=
  c6_window_invariant [] hundred_window sample_record true false (init_state [])
    "u" "q" "t" deep_research empty_result 0 (by simp [hundred_window])

/-- C7.  With a successful primary fetch and three follow-up candidates of
which the second raises, the failure is caught and isolated: the result
carries opportunities for the first and third candidates, all three were
still fetched, and the adaptation log holds exactly one diagnostic naming
the failed url. -/
theorem c7_followup_isolation (fetch : String → FetchResult)
    (now url u1 u2 u3 e : String) (strat : CrawlStrategy) (ctx : CrawlContext)
    (po o1 o3 : FetchOutcome)
    (hp : fetch url = .outcome po) (hps : po.success = true)
    (hfl : strat.follow_links = true) (hdl : 1 < strat.depth_limit)
    (h1 : fetch u1 = .outcome o1) (h1s : o1.success = true)
    (h2 : fetch u2 = .raised e)
    (h3 : fetch u3 = .outcome o3) (h3s : o3.success = true) :
    execute_with_monitoring fetch (.ok [u1, u2, u3]) now url strat ctx
      = .ok { result :=
                { primary_content := some
                    { url := url, content := po.extracted_content,
                      metadata := po.metadata, timestamp := now }
                  discovered_opportunities :=
                    [⟨u1, o1.extracted_content, "discovered_link"⟩,
                     ⟨u3, o3.extracted_content, "discovered_link"⟩]
                  performance_metrics := []
                  adaptation_log := ["Failed to crawl " ++ u2 ++ ": " ++ e] }
              fetched := [url, u1, u2, u3]
              followup_select_called := true } := by
  have htake : (identify_follow_up_links (.ok [u1, u2, u3])).take 3
      = [u1, u2, u3] := List.take_of_length_le (by simp [identify_follow_up_links])
  simp [execute_with_monitoring, htake, follow_step,
        hp, hps, hfl, hdl, h1, h1s, h2, h3, h3s]

/-- C7 witness: the isolation scenario at a concrete fetch stub that raises
exactly on the second candidate. -/
theorem c7_followup_isolation_witness :
    execute_with_monitoring c7_fetch (.ok ["a", "u2", "c"]) "t" "u"
        deep_research sample_context
      = .ok { result :=
                { primary_content := some
                    { url := "u", content := "body", metadata := [],
                      timestamp := "t" }
                  discovered_opportunities :=
                    [⟨"a", "body", "discovered_link"⟩,
                     ⟨"c", "body", "discovered_link"⟩]
                  performance_metrics := []
                  adaptation_log := ["Failed to crawl " ++ "u2" ++ ": " ++ "boom"] }
              fetched := ["u", "a", "u2", "c"]
              followup_select_called := true } :=
  c7_followup_isolation c7_fetch "t" "u" "a" "u2" "c" "boom" deep_research
    sample_context ok_outcome ok_outcome ok_outcome rfl rfl rfl (by decide)
    rfl rfl rfl rfl rfl

/-- C8.  On an oracle failure, and equally on a decision naming a strategy
outside the catalog, the selector returns the catalog's "deep_research"
entry unmodified (the attached modifications are ignored), and the call
leaves the catalog untouched; as a pure function of its inputs the fallback
is deterministic. -/
theorem c8_fallback (e : String) (dec : StrategyDecision)
    (h : dict_get base_strategies (dec.selected_strategy.getD "deep_research")
      = none) :
    select_strategy (.error e) = deep_research
      ∧ select_strategy (.ok dec) = deep_research
      ∧ (select_strategy_from base_strategies (.error e)).2 = base_strategies
      ∧ (select_strategy_from base_strategies (.ok dec)).2 = base_strategies := by
  refine ⟨rfl, ?_, rfl, ?_⟩
  · simp only [select_strategy, select_strategy_from]
    rw [h]
    exact rfl
  · simp only [select_strategy_from]
    rw [h]

/-- C8 witness: a concrete timeout and a concrete unrecognized decision
(with modifications attached) both land on the unmodified default entry. -/
theorem c8_fallback_witness :
    select_strategy (.error "timeout") = deep_research
      ∧ select_strategy (.ok bogus_decision) = deep_research
      ∧ (select_strategy_from base_strategies (.error "timeout")).2 = base_strategies
      ∧ (select_strategy_from base_strategies (.ok bogus_decision)).2 = base_strategies :=
  c8_fallback "timeout" bogus_decision (by decide)

end AgenticCrawler
